import Mathlib

/-!
Verification of the video-identifier resolution and acquisition logic of the
VimeoTranscribe repository (`src/wistia_extractor.py`), as a shallow embedding:

* `extract_video_id` embeds the resolver (lines 14–55): the bare-identifier
  regex `^[a-z0-9]{8,}$` checked first, then the Vimeo URL patterns, then the
  Wistia URL patterns, every match performed on the lowercased input.
  Python's `$` anchor matches at the end of the string or just before a single
  trailing newline, and `str.lower` is modelled on its ASCII fragment.
* `is_vimeo_url` embeds lines 58–68.
* `download_video_with_ytdlp` embeds the control flow of lines 71–229 with the
  outcomes of the (at most two) yt-dlp library invocations supplied as oracle
  values; the returned list records every invocation and whether the
  `cookiesfrombrowser` option was set for it.
* `selectVideoUrl` embeds the asset filter and width sort of lines 285–292
  (Python `list.sort` with a key and `reverse=True` is a stable descending
  sort, realised here by a stable insertion sort).
* `extract_and_download` embeds lines 232–331; network effects (the metadata
  fetch and the chunked stream) are supplied as oracle values in `Env`, and
  the run result records the trace of external actions and the local files
  written by the chunked download, including partially written ones.
-/

namespace VimeoTranscribe

/-! ### Character classes and ASCII lowercasing -/

/-- The regex class `\d`. -/
def digitChar (c : Char) : Bool := 48 ≤ c.toNat && c.toNat ≤ 57

/-- The regex class `[a-z0-9]`. -/
def lowerAlnum (c : Char) : Bool := (97 ≤ c.toNat && c.toNat ≤ 122) || digitChar c

/-- An ASCII letter `[A-Za-z]`. -/
def letterChar (c : Char) : Bool :=
  (65 ≤ c.toNat && c.toNat ≤ 90) || (97 ≤ c.toNat && c.toNat ≤ 122)

/-- ASCII fragment of Python `str.lower` on a single character. -/
def lowerCh (c : Char) : Char :=
  if 65 ≤ c.toNat ∧ c.toNat ≤ 90 then Char.ofNat (c.toNat + 32) else c

/-- Python `str.lower` over the character list (ASCII fragment). -/
def lowerL (l : List Char) : List Char := l.map lowerCh

/-- Python `str.lower` on a `String`. -/
def lowerStr (s : String) : String := String.mk (lowerL s.data)

/-! ### Substring test (`pat in s`) and greedy character-class runs -/

/-- Python's `pat in s` substring test, on character lists. -/
def subL (pat : List Char) : List Char → Bool
  | [] => pat.isEmpty
  | c :: cs => pat.isPrefixOf (c :: cs) || subL pat cs

/-- Python's `pat in s` substring test, on strings. -/
def subStr (pat s : String) : Bool := subL pat.data s.data

/-- The greedy run a regex `cls+` consumes at the head of the list. -/
def takeRun (cls : Char → Bool) : List Char → List Char
  | [] => []
  | c :: cs => if cls c then c :: takeRun cls cs else []

/-- Python `re.search` for a pattern `lit(cls+)`: leftmost position where the literal
`lit` is followed by a nonempty `cls` run; returns the (greedy) captured run. -/
def searchLitClass (lit : List Char) (cls : Char → Bool) : List Char → Option (List Char)
  | [] => none
  | c :: cs =>
    if lit.isPrefixOf (c :: cs) then
      if (takeRun cls ((c :: cs).drop lit.length)).isEmpty then searchLitClass lit cls cs
      else some (takeRun cls ((c :: cs).drop lit.length))
    else searchLitClass lit cls cs

/-- Rest of the pattern `vimeo\.com/(\d+)/([a-z0-9]+)` after the literal: the
greedy `\d+` takes the maximal digit run; since `/` is not a digit,
backtracking cannot produce a different split, so the pattern matches at this
position iff the maximal digit run is nonempty, is followed by `/`, and then
by at least one `[a-z0-9]` character. -/
def vimeoHashGuard (after : List Char) : Bool :=
  !(takeRun digitChar after).isEmpty
    && (after.drop (takeRun digitChar after).length).head? == some '/'
    && !(takeRun lowerAlnum ((after.drop (takeRun digitChar after).length).drop 1)).isEmpty

/-- Python `re.search` for `vimeo\.com/(\d+)/([a-z0-9]+)`, returning group 1
(the greedy digit run). -/
def searchVimeoHash : List Char → Option (List Char)
  | [] => none
  | c :: cs =>
    if "vimeo.com/".data.isPrefixOf (c :: cs) then
      if vimeoHashGuard ((c :: cs).drop 10) then some (takeRun digitChar ((c :: cs).drop 10))
      else searchVimeoHash cs
    else searchVimeoHash cs

/-! ### Anchored matches (`re.match(^...$, s)`)

Python's `$` matches at the end of the string or just before a newline at the
end of the string, so `^cls{n,}$` accepts a `cls` run of length ≥ n optionally
followed by one final `'\n'`. -/

/-- Python `re.match(r'^[a-z0-9]{8,}$', l)` as a Bool (line 26 of the source). -/
def bareIdMatch (l : List Char) : Bool :=
  (decide (8 ≤ l.length) && l.all lowerAlnum) ||
  (l.getLast? == some '\n' && decide (8 ≤ l.dropLast.length) && l.dropLast.all lowerAlnum)

/-- Python `re.match(r'^\d+$', l)` as a Bool (line 68 of the source). -/
def matchAllDigits (l : List Char) : Bool :=
  (!l.isEmpty && l.all digitChar) ||
  (l.getLast? == some '\n' && !l.dropLast.isEmpty && l.dropLast.all digitChar)

/-! ### The resolver `extract_video_id` (source lines 14–55) -/

/-- The three Vimeo patterns, tried in order; each returns group 1.
`vimeo\.com/(\d+)` — `vimeo\.com/(\d+)/([a-z0-9]+)` — `player\.vimeo\.com/video/(\d+)`. -/
def vimeoGroup (l : List Char) : Option (List Char) :=
  match searchLitClass "vimeo.com/".data digitChar l with
  | some g => some g
  | none =>
    match searchVimeoHash l with
    | some g => some g
    | none => searchLitClass "player.vimeo.com/video/".data digitChar l

/-- The four Wistia patterns, tried in order.
`wistia\.com/medias/([a-z0-9]+)` — `wi\.st/([a-z0-9]+)` —
`wistia\.net/embed/([a-z0-9]+)` — `medias/([a-z0-9]+)`. -/
def wistiaGroup (l : List Char) : Option (List Char) :=
  match searchLitClass "wistia.com/medias/".data lowerAlnum l with
  | some g => some g
  | none =>
    match searchLitClass "wi.st/".data lowerAlnum l with
    | some g => some g
    | none =>
      match searchLitClass "wistia.net/embed/".data lowerAlnum l with
      | some g => some g
      | none => searchLitClass "medias/".data lowerAlnum l

/-- Body of `extract_video_id` on the lowercased input: bare-identifier check
first (returning the whole lowercased input), then the Vimeo patterns, then
the Wistia patterns. -/
def evidCore (l : List Char) : Option String :=
  if bareIdMatch l then some (String.mk l)
  else
    match vimeoGroup l with
    | some g => some (String.mk g)
    | none =>
      match wistiaGroup l with
      | some g => some (String.mk g)
      | none => none

/-- The resolver `extract_video_id(url_or_id)` (source lines 14–55): every test and the
bare-identifier return value use `url_or_id.lower()`. -/
def extract_video_id (s : String) : Option String := evidCore (lowerL s.data)

/-- The classifier `is_vimeo_url(url_or_id)` (source lines 58–68):
`'vimeo.com' in url_or_id.lower() or re.match(r'^\d+$', url_or_id)`. -/
def is_vimeo_url (s : String) : Bool :=
  subStr "vimeo.com" (lowerStr s) || matchAllDigits s.data

/-! ### `download_video_with_ytdlp` (source lines 71–229)

The yt-dlp library is external; the outcome of each of its (at most two)
invocations is an oracle value.  The function records every invocation it
makes as a `YdlCall` (the URL and the `cookiesfrombrowser` option in force),
so retry behaviour is visible in the returned list. -/

/-- Outcome of one yt-dlp invocation: a located downloaded file, a run that
produced no locatable file, a `yt_dlp.utils.DownloadError` with message `msg`,
or any other exception with message `msg`. -/
inductive YdlOutcome where
  | found (path : String)
  | noFile
  | dlError (msg : String)
  | otherExn (msg : String)
deriving DecidableEq, Repr

/-- One yt-dlp invocation as made by the source: the URL it was given and the
`cookiesfrombrowser` browser key, if the option was set. -/
structure YdlCall where
  url : String
  cookies : Option String
deriving DecidableEq, Repr

/-- Lines 111–130: `cookiesfrombrowser` is set only for URLs containing
`vimeo.com`; the browser loop assigns `('edge',)` and breaks on its first
iteration (the `try` body cannot raise). -/
def ydlCookies (videoUrl : String) : Option String :=
  if subStr "vimeo.com" (lowerStr videoUrl) then some "edge" else none

/-- Lines 166 and 206: the error message marks a cookie-database access
failure. -/
def cookieMsg (msg : String) : Bool :=
  subStr "cookie database" (lowerStr msg) || subStr "could not copy" (lowerStr msg)

/-- The downloader `download_video_with_ytdlp(video_url, video_id)` (lines 71–229); `o1` and
`o2` are the outcomes of the first and (if reached) second yt-dlp invocation.
Returns the function's result and the list of invocations made.  Both
exception handlers retry exactly once, with `cookiesfrombrowser` popped, when
the message marks a cookie-database failure; any failure of that retry falls
through to the diagnostics and `return None`. -/
def download_video_with_ytdlp (videoUrl videoId : String) (o1 o2 : YdlOutcome) :
    Option String × List YdlCall :=
  let call1 : YdlCall := ⟨videoUrl, ydlCookies videoUrl⟩
  match o1 with
  | .found p => (some p, [call1])
  | .noFile => (none, [call1])
  | .dlError msg =>
    if cookieMsg msg then
      let call2 : YdlCall := ⟨videoUrl, none⟩
      match o2 with
      | .found p => (some p, [call1, call2])
      | _ => (none, [call1, call2])
    else (none, [call1])
  | .otherExn msg =>
    if cookieMsg msg then
      let call2 : YdlCall := ⟨videoUrl, none⟩
      match o2 with
      | .found p => (some p, [call1, call2])
      | _ => (none, [call1, call2])
    else (none, [call1])

/-! ### Wistia asset selection (source lines 285–292) -/

/-- One entry of `media.assets`: the fields the selection code reads. -/
structure Asset where
  type : Option String
  width : Option Nat
  height : Option Nat
  url : Option String
deriving DecidableEq, Repr

/-- Line 287: `a.get('type') == 'original' or (a.get('type') == 'mp4' and 'url' in a)`. -/
def eligibleAsset (a : Asset) : Bool :=
  a.type == some "original" || (a.type == some "mp4" && a.url.isSome)

/-- Line 291's sort key `x.get('width', 0) or x.get('height', 0)`: a missing or
zero width falls through (Python `or`) to the height, defaulting to 0. -/
def assetKey (a : Asset) : Nat :=
  match a.width with
  | some w => if w ≠ 0 then w else a.height.getD 0
  | none => a.height.getD 0

/-- Stable descending insertion by `assetKey`: an earlier element is placed
before a later one exactly when its key is ≥, which reproduces Python's
stable `list.sort(key=..., reverse=True)`. -/
def insertDesc (a : Asset) : List Asset → List Asset
  | [] => [a]
  | b :: bs => if assetKey b ≤ assetKey a then a :: b :: bs else b :: insertDesc a bs

/-- Python `video_assets.sort(key=..., reverse=True)` as a stable descending sort. -/
def sortAssetsDesc (l : List Asset) : List Asset := l.foldr insertDesc []

/-- Lines 284–292: filter the eligible assets; if any remain, sort them
descending by key and read `video_assets[0].get('url')`.  The result is the
`video_url` variable: `none` when the list is empty or the chosen asset has
no `url` field. -/
def selectVideoUrl (assets : List Asset) : Option String :=
  let va := assets.filter eligibleAsset
  if va.isEmpty then none else ((sortAssetsDesc va).head?.bind Asset.url)

/-! ### `extract_and_download` (source lines 232–331) -/

/-- Outcome of `requests.get(embed_url)` + `.json()` (lines 278–281): an
exception anywhere in that block, or a parsed document; `none` models a
document without `media`/`assets` fields (line 285's membership test). -/
inductive FetchResult where
  | exn
  | ok (assets? : Option (List Asset))
deriving DecidableEq, Repr

/-- One event of the chunked transfer loop (lines 308–315): a chunk of `n`
bytes arriving, or the iteration raising mid-transfer. -/
inductive ChunkEvent where
  | chunk (n : Nat)
  | interrupt
deriving DecidableEq, Repr

/-- Outcome of the streaming `requests.get(video_url)` (lines 298–299): an
exception before the output file is opened, or a body delivered as chunk
events. -/
inductive StreamOutcome where
  | httpExn
  | body (events : List ChunkEvent)
deriving DecidableEq, Repr

/-- Oracle values for the externals one `extract_and_download` run can touch:
the metadata fetch, the chunked stream, and the outcomes of the at most two
yt-dlp invocations of its single `download_video_with_ytdlp` call. -/
structure Env where
  fetch : FetchResult
  stream : StreamOutcome
  o1 : YdlOutcome
  o2 : YdlOutcome

/-- An external action performed by the run, in order. -/
inductive Action where
  | fetchMeta (url : String)
  | streamGet (url : String)
  | ytdlp (url : String) (id : String) (cookies : Option String)
deriving DecidableEq, Repr

/-- A local file written by the run's own chunked-download loop:
its path (the temp-directory component elided), the bytes written, and
whether the transfer loop was interrupted before completing. -/
structure FileRec where
  path : String
  bytes : Nat
  incomplete : Bool
deriving DecidableEq, Repr

/-- Result of one `extract_and_download` run: the returned pair, the trace of
external actions, and the local files its chunked download wrote. -/
structure RunResult where
  vid : Option String
  path : Option String
  trace : List Action
  files : List FileRec
deriving DecidableEq, Repr

/-- Drive the write loop of lines 307–315: accumulate bytes until the events
end (complete) or an interruption raises (incomplete). -/
def writeChunks (bytes : Nat) : List ChunkEvent → Nat × Bool
  | [] => (bytes, false)
  | .chunk n :: es => writeChunks (bytes + n) es
  | .interrupt :: _ => (bytes, true)

/-- Trace entries of one `download_video_with_ytdlp` call. -/
def ydlActions (id : String) (calls : List YdlCall) : List Action :=
  calls.map fun c => Action.ytdlp c.url id c.cookies

/-- The orchestrator `extract_and_download(video_input)` (lines 232–331).  The branch structure
follows the source: no extractable id → raw-URL pass-through or terminal
failure; Vimeo or an input containing `http` → yt-dlp on the input (or a
constructed `https://vimeo.com/<id>`); otherwise the Wistia embed-JSON
endpoint, streaming the selected asset URL, with any exception or missing
asset falling back to yt-dlp on `https://fast.wistia.com/embed/medias/<id>`. -/
def extract_and_download (videoInput : String) (env : Env) : RunResult :=
  match extract_video_id videoInput with
  | none =>
    if subStr "http" videoInput || subStr "vimeo.com" (lowerStr videoInput)
        || subStr "wistia.com" (lowerStr videoInput) then
      let r := download_video_with_ytdlp videoInput "video" env.o1 env.o2
      match r.1 with
      | some p =>
        { vid := some ((extract_video_id videoInput).getD "video"), path := some p,
          trace := ydlActions "video" r.2, files := [] }
      | none => { vid := none, path := none, trace := ydlActions "video" r.2, files := [] }
    else { vid := none, path := none, trace := [], files := [] }
  | some vid =>
    if is_vimeo_url videoInput || subStr "http" videoInput then
      let url := if subStr "http" videoInput then videoInput else "https://vimeo.com/" ++ vid
      let r := download_video_with_ytdlp url vid env.o1 env.o2
      { vid := some vid, path := r.1, trace := ydlActions vid r.2, files := [] }
    else
      let embedUrl := "https://fast.wistia.com/embed/medias/" ++ vid ++ ".json"
      let fallbackUrl :=
        if subStr "http" videoInput then videoInput
        else "https://fast.wistia.com/embed/medias/" ++ vid
      match env.fetch with
      | .exn =>
        let r := download_video_with_ytdlp fallbackUrl vid env.o1 env.o2
        { vid := some vid, path := r.1,
          trace := Action.fetchMeta embedUrl :: ydlActions vid r.2, files := [] }
      | .ok assets? =>
        match assets?.bind selectVideoUrl with
        | none =>
          let url := "https://fast.wistia.com/embed/medias/" ++ vid
          let r := download_video_with_ytdlp url vid env.o1 env.o2
          { vid := some vid, path := r.1,
            trace := Action.fetchMeta embedUrl :: ydlActions vid r.2, files := [] }
        | some u =>
          match env.stream with
          | .httpExn =>
            let r := download_video_with_ytdlp fallbackUrl vid env.o1 env.o2
            { vid := some vid, path := r.1,
              trace := Action.fetchMeta embedUrl :: Action.streamGet u :: ydlActions vid r.2,
              files := [] }
          | .body events =>
            let filePath := "wistia_" ++ vid ++ ".mp4"
            let w := writeChunks 0 events
            if w.2 then
              let r := download_video_with_ytdlp fallbackUrl vid env.o1 env.o2
              { vid := some vid, path := r.1,
                trace := Action.fetchMeta embedUrl :: Action.streamGet u :: ydlActions vid r.2,
                files := [⟨filePath, w.1, true⟩] }
            else
              { vid := some vid, path := some filePath,
                trace := [Action.fetchMeta embedUrl, Action.streamGet u],
                files := [⟨filePath, w.1, false⟩] }

example : extract_video_id "vimeo.com/123456789" = some "123456789" := by decide
example : extract_video_id "VIMEO.COM/123456789" = some "123456789" := by decide
example : extract_video_id "wistia.com/medias/abc1234567" = some "abc1234567" := by decide
example : extract_video_id "abcdefgh" = some "abcdefgh" := by decide
example : extract_video_id "not a url or id" = none := by decide
example : extract_video_id "player.vimeo.com/video/1234" = some "1234" := by decide
example : is_vimeo_url "12345678" = true := by decide
example : is_vimeo_url "wistia.com/medias/abc1234567" = false := by decide

/-! ### Helper lemmas -/

theorem toNat_ofNat_shift (n : Nat) (h1 : 65 ≤ n) (h2 : n ≤ 90) :
    (Char.ofNat (n + 32)).toNat = n + 32 := by
  interval_cases n <;> decide

theorem lowerCh_fix {c : Char} (h : lowerAlnum c = true) : lowerCh c = c := by
  have h' : (97 ≤ c.toNat ∧ c.toNat ≤ 122) ∨ (48 ≤ c.toNat ∧ c.toNat ≤ 57) := by
    simpa [lowerAlnum, digitChar, Bool.or_eq_true, Bool.and_eq_true,
      decide_eq_true_eq] using h
  unfold lowerCh
  rw [if_neg (by omega)]

theorem lowerCh_idem (c : Char) : lowerCh (lowerCh c) = lowerCh c := by
  by_cases h : 65 ≤ c.toNat ∧ c.toNat ≤ 90
  · have h1 : lowerCh c = Char.ofNat (c.toNat + 32) := by unfold lowerCh; rw [if_pos h]
    rw [h1]
    unfold lowerCh
    rw [toNat_ofNat_shift c.toNat h.1 h.2, if_neg (by omega)]
  · have h1 : lowerCh c = c := by unfold lowerCh; rw [if_neg h]
    rw [h1]
    exact h1

theorem lowerL_fix {l : List Char} (h : l.all lowerAlnum = true) : lowerL l = l := by
  induction l with
  | nil => rfl
  | cons c cs ih =>
    simp only [List.all_cons, Bool.and_eq_true] at h
    show lowerCh c :: lowerL cs = c :: cs
    rw [lowerCh_fix h.1, ih h.2]

theorem lowerL_idem (l : List Char) : lowerL (lowerL l) = lowerL l := by
  induction l with
  | nil => rfl
  | cons c cs ih =>
    show lowerCh (lowerCh c) :: lowerL (lowerL cs) = lowerCh c :: lowerL cs
    rw [lowerCh_idem, ih]

theorem takeRun_all (cls : Char → Bool) (l : List Char) : (takeRun cls l).all cls = true := by
  induction l with
  | nil => rfl
  | cons c cs ih =>
    unfold takeRun
    cases h : cls c with
    | false => simp [h]
    | true => simp [h, ih]

theorem searchLitClass_some {lit : List Char} {cls : Char → Bool} :
    ∀ {l g : List Char}, searchLitClass lit cls l = some g → g ≠ [] ∧ g.all cls = true := by
  intro l
  induction l with
  | nil => intro g h; simp [searchLitClass] at h
  | cons c cs ih =>
    intro g h
    unfold searchLitClass at h
    by_cases hp : lit.isPrefixOf (c :: cs)
    · rw [if_pos hp] at h
      by_cases he : (takeRun cls ((c :: cs).drop lit.length)).isEmpty
      · rw [if_pos he] at h; exact ih h
      · rw [if_neg he] at h
        cases h
        exact ⟨by simpa [List.isEmpty_iff] using he, takeRun_all ..⟩
    · rw [if_neg hp] at h; exact ih h

theorem searchVimeoHash_some :
    ∀ {l g : List Char}, searchVimeoHash l = some g → g ≠ [] ∧ g.all digitChar = true := by
  intro l
  induction l with
  | nil => intro g h; simp [searchVimeoHash] at h
  | cons c cs ih =>
    intro g h
    unfold searchVimeoHash at h
    by_cases hp : "vimeo.com/".data.isPrefixOf (c :: cs)
    · rw [if_pos hp] at h
      by_cases hg : vimeoHashGuard ((c :: cs).drop 10) = true
      · rw [if_pos hg] at h
        cases h
        refine ⟨?_, takeRun_all ..⟩
        have := (by simpa [vimeoHashGuard, Bool.and_eq_true] using hg :
          (!(takeRun digitChar ((c :: cs).drop 10)).isEmpty = true ∧ _) ∧ _)
        simpa [List.isEmpty_iff] using this.1.1
      · rw [if_neg hg] at h; exact ih h
    · rw [if_neg hp] at h; exact ih h

theorem all_digit_alnum {l : List Char} (h : l.all digitChar = true) :
    l.all lowerAlnum = true := by
  rw [List.all_eq_true] at h ⊢
  intro c hc
  have := h c hc
  simp [lowerAlnum, this]

theorem vimeoGroup_some {l g : List Char} (h : vimeoGroup l = some g) :
    g ≠ [] ∧ g.all lowerAlnum = true := by
  unfold vimeoGroup at h
  cases h1 : searchLitClass "vimeo.com/".data digitChar l with
  | some g1 =>
    rw [h1] at h; cases h
    have := searchLitClass_some h1
    exact ⟨this.1, all_digit_alnum this.2⟩
  | none =>
    rw [h1] at h
    cases h2 : searchVimeoHash l with
    | some g2 =>
      rw [h2] at h; cases h
      have := searchVimeoHash_some h2
      exact ⟨this.1, all_digit_alnum this.2⟩
    | none =>
      rw [h2] at h
      have := searchLitClass_some h
      exact ⟨this.1, all_digit_alnum this.2⟩

theorem wistiaGroup_some {l g : List Char} (h : wistiaGroup l = some g) :
    g ≠ [] ∧ g.all lowerAlnum = true := by
  unfold wistiaGroup at h
  cases h1 : searchLitClass "wistia.com/medias/".data lowerAlnum l with
  | some g1 => rw [h1] at h; cases h; exact searchLitClass_some h1
  | none =>
    rw [h1] at h
    cases h2 : searchLitClass "wi.st/".data lowerAlnum l with
    | some g2 => rw [h2] at h; cases h; exact searchLitClass_some h2
    | none =>
      rw [h2] at h
      cases h3 : searchLitClass "wistia.net/embed/".data lowerAlnum l with
      | some g3 => rw [h3] at h; cases h; exact searchLitClass_some h3
      | none => rw [h3] at h; exact searchLitClass_some h

/-! ### Claim C1: Wistia asset selection -/

/-- C1, counterexample.  For the claimed metadata document (URLs attached to
the assets, as every real Wistia asset descriptor carries one), the selection
rule of `extract_and_download` (lines 285–292) returns the widest mp4's URL
`"u3"`, not the `original`-typed asset's URL `"u2"`: the sort key is the
declared width, and the `original` asset's width 0 places it last. -/
theorem c1_counterexample :
    selectVideoUrl
      [⟨some "mp4", some 640, none, some "u1"⟩,
       ⟨some "original", some 0, none, some "u2"⟩,
       ⟨some "mp4", some 1920, none, some "u3"⟩] = some "u3" ∧
    ("u3" : String) ≠ "u2" := by
  constructor
  · rfl
  · decide

/-- C1, amended: the selection rule sorts the eligible assets by declared
width (falling back to height when the width is 0 or absent) in descending
order and takes the first asset's URL, so for an asset list
`[{mp4, w1}, {original, 0}, {mp4, w3}]` with `0 < w1 < w3` it selects the
URL of the mp4 asset with the largest width — not the `original` asset. -/
theorem c1_widest_mp4_selected (w1 w3 : Nat) (u1 u2 u3 : String)
    (h1 : 0 < w1) (h13 : w1 < w3) :
    selectVideoUrl
      [⟨some "mp4", some w1, none, some u1⟩,
       ⟨some "original", some 0, none, some u2⟩,
       ⟨some "mp4", some w3, none, some u3⟩] = some u3 := by
  have hw1 : w1 ≠ 0 := by omega
  have hw3 : w3 ≠ 0 := by omega
  simp [selectVideoUrl, eligibleAsset, sortAssetsDesc, insertDesc, assetKey, hw1, hw3,
    show ¬ w3 ≤ 0 by omega, show ¬ w3 ≤ w1 by omega]

/-- C1, witness for `c1_widest_mp4_selected` at the claimed widths 640/1920. -/
theorem c1_witness :
    0 < 640 ∧ 640 < 1920 ∧
    selectVideoUrl
      [⟨some "mp4", some 640, none, some "u1"⟩,
       ⟨some "original", some 0, none, some "u2"⟩,
       ⟨some "mp4", some 1920, none, some "u3"⟩] = some "u3" :=
  ⟨by decide, by decide,
    c1_widest_mp4_selected 640 1920 "u1" "u2" "u3" (by decide) (by decide)⟩

/-! ### Claim C3: the cookie-failure retry of `download_video_with_ytdlp` -/

/-- C3: when the first yt-dlp invocation fails (as a `DownloadError` or any
other exception) with a message marking a cookie-database access failure, the
function makes exactly one further invocation, with `cookiesfrombrowser`
removed, and any failure of that retry yields `None` with no third
invocation. -/
theorem c3_cookie_retry_once (url id msg : String) (o1 o2 : YdlOutcome)
    (hmsg : cookieMsg msg = true)
    (h1 : o1 = .dlError msg ∨ o1 = .otherExn msg) :
    (download_video_with_ytdlp url id o1 o2).2 = [⟨url, ydlCookies url⟩, ⟨url, none⟩]
    ∧ ((∀ p, o2 ≠ .found p) → (download_video_with_ytdlp url id o1 o2).1 = none) := by
  rcases h1 with h | h <;> subst h <;>
  · constructor
    · cases o2 <;> simp [download_video_with_ytdlp, hmsg]
    · intro hfail
      cases ho : o2 with
      | found p => exact absurd ho (hfail p)
      | noFile => simp [download_video_with_ytdlp, hmsg]
      | dlError m => simp [download_video_with_ytdlp, hmsg]
      | otherExn m => simp [download_video_with_ytdlp, hmsg]

/-- C3, witness: a Vimeo URL whose first attempt raises a cookie-database
`DownloadError` and whose cookie-free retry fails with an unrelated error:
exactly two invocations, the second without cookies, and the result is
`None`. -/
theorem c3_witness :
    cookieMsg "Could not copy Chrome cookie database" = true ∧
    (download_video_with_ytdlp "https://vimeo.com/123456789" "123456789"
        (.dlError "Could not copy Chrome cookie database") (.dlError "HTTP Error 404")).2
      = [⟨"https://vimeo.com/123456789", some "edge"⟩, ⟨"https://vimeo.com/123456789", none⟩] ∧
    (download_video_with_ytdlp "https://vimeo.com/123456789" "123456789"
        (.dlError "Could not copy Chrome cookie database") (.dlError "HTTP Error 404")).1
      = none := by
  have h := c3_cookie_retry_once "https://vimeo.com/123456789" "123456789"
    "Could not copy Chrome cookie database"
    (.dlError "Could not copy Chrome cookie database") (.dlError "HTTP Error 404")
    (by decide) (Or.inl rfl)
  refine ⟨by decide, ?_, h.2 (by intro p hp; cases hp)⟩
  rw [h.1]
  rfl

/-! ### Claim C6: bare identifiers are returned unchanged -/

/-- C6: a string of lowercase letters and digits of length ≥ 8 satisfies the
bare-identifier check (so the branch at source lines 26–27 returns before any
URL pattern is consulted), and `extract_video_id` returns it unchanged. -/
theorem c6_bare_id_unchanged (s : String)
    (h8 : 8 ≤ s.data.length) (hall : s.data.all lowerAlnum = true) :
    bareIdMatch (lowerL s.data) = true ∧ extract_video_id s = some s := by
  have hfix : lowerL s.data = s.data := lowerL_fix hall
  have hb : bareIdMatch s.data = true := by
    unfold bareIdMatch
    rw [hall, decide_eq_true h8]
    rfl
  constructor
  · rw [hfix]; exact hb
  · show evidCore (lowerL s.data) = some s
    rw [hfix]
    unfold evidCore
    rw [if_pos hb]

/-- C6, witness at the bare identifier `"abcdefgh"`. -/
theorem c6_witness :
    8 ≤ "abcdefgh".data.length ∧ "abcdefgh".data.all lowerAlnum = true ∧
    (bareIdMatch (lowerL "abcdefgh".data) = true ∧
      extract_video_id "abcdefgh" = some "abcdefgh") :=
  ⟨by decide, by decide, c6_bare_id_unchanged "abcdefgh" (by decide) (by decide)⟩

/-! ### Claim C7: resolution is case-insensitive -/

/-- C7: `extract_video_id` gives the same result on any input and on its
lowercased form (every check in the source runs on `url_or_id.lower()`, and
lowering is idempotent); in particular `"VIMEO.COM/123456789"` resolves to
the same identifier as `"vimeo.com/123456789"`. -/
theorem c7_case_insensitive :
    (∀ s : String, extract_video_id s = extract_video_id (lowerStr s)) ∧
    extract_video_id "VIMEO.COM/123456789" = extract_video_id "vimeo.com/123456789" := by
  constructor
  · intro s
    show evidCore (lowerL s.data) = evidCore (lowerL (lowerL s.data))
    rw [lowerL_idem]
  · decide

/-! ### Claim C8: shape of a returned identifier -/

/-- C8, counterexample: Python's `$` matches just before a trailing newline,
so the bare-identifier branch accepts `"abcdefgh\n"` and returns it with the
newline — the returned identifier is not a string of lowercase letters and
digits only. -/
theorem c8_counterexample :
    extract_video_id "abcdefgh\n" = some "abcdefgh\n" ∧
    "abcdefgh\n".data.all lowerAlnum = false := by
  constructor
  · rfl
  · decide

/-- C8, amended: whenever `extract_video_id` returns an identifier, it is
nonempty and consists of lowercase letters and digits — except that an input
whose lowercase form is such a run followed by one trailing newline is
returned with that trailing newline (the `$` anchor of the bare-identifier
regex tolerates it). -/
theorem c8_id_shape (s id : String) (h : extract_video_id s = some id) :
    id.data ≠ [] ∧
      (id.data.all lowerAlnum = true ∨
        (id.data.getLast? = some '\n' ∧ id.data.dropLast ≠ [] ∧
          id.data.dropLast.all lowerAlnum = true)) := by
  unfold extract_video_id evidCore at h
  by_cases hb : bareIdMatch (lowerL s.data) = true
  · rw [if_pos hb] at h
    cases h
    have hb' : (8 ≤ (lowerL s.data).length ∧ (lowerL s.data).all lowerAlnum = true) ∨
        ((lowerL s.data).getLast? = some '\n' ∧ 8 ≤ (lowerL s.data).dropLast.length ∧
          (lowerL s.data).dropLast.all lowerAlnum = true) := by
      simpa [bareIdMatch, Bool.or_eq_true, Bool.and_eq_true, decide_eq_true_eq,
        and_assoc] using hb
    rcases hb' with ⟨h8, hall⟩ | ⟨hlast, h8, hall⟩
    · refine ⟨?_, Or.inl hall⟩
      intro he
      have he' : lowerL s.data = [] := he
      rw [he'] at h8
      simp at h8
    · refine ⟨?_, Or.inr ⟨hlast, ?_, hall⟩⟩
      · intro he
        have he' : lowerL s.data = [] := he
        rw [he'] at hlast
        simp at hlast
      · intro he
        have he' : (lowerL s.data).dropLast = [] := he
        rw [he'] at h8
        simp at h8
  · rw [if_neg hb] at h
    cases hv : vimeoGroup (lowerL s.data) with
    | some g =>
      rw [hv] at h
      cases h
      have := vimeoGroup_some hv
      exact ⟨this.1, Or.inl this.2⟩
    | none =>
      rw [hv] at h
      cases hw : wistiaGroup (lowerL s.data) with
      | some g =>
        rw [hw] at h
        cases h
        have := wistiaGroup_some hw
        exact ⟨this.1, Or.inl this.2⟩
      | none => rw [hw] at h; cases h

/-- C8, witness for `c8_id_shape` at `"wistia.com/medias/abc1234567"`. -/
theorem c8_witness :
    extract_video_id "wistia.com/medias/abc1234567" = some "abc1234567" ∧
    ("abc1234567".data ≠ [] ∧
      ("abc1234567".data.all lowerAlnum = true ∨
        ("abc1234567".data.getLast? = some '\n' ∧ "abc1234567".data.dropLast ≠ [] ∧
          "abc1234567".data.dropLast.all lowerAlnum = true))) :=
  ⟨by decide, c8_id_shape "wistia.com/medias/abc1234567" "abc1234567" (by decide)⟩

/-! ### Helper lemmas about the orchestration model -/

/-- Every run of `download_video_with_ytdlp` starts with the invocation that
uses the URL and the cookie setting of lines 101–130. -/
theorem ydl_calls_head (url id : String) (o1 o2 : YdlOutcome) :
    (download_video_with_ytdlp url id o1 o2).2.head? = some ⟨url, ydlCookies url⟩ := by
  cases o1 with
  | found p => rfl
  | noFile => rfl
  | dlError m =>
    by_cases h : cookieMsg m = true
    · cases o2 <;> simp [download_video_with_ytdlp, h]
    · simp [download_video_with_ytdlp, h]
  | otherExn m =>
    by_cases h : cookieMsg m = true
    · cases o2 <;> simp [download_video_with_ytdlp, h]
    · simp [download_video_with_ytdlp, h]

/-- The first yt-dlp invocation appears among the trace entries of the call. -/
theorem ydl_first_action_mem (url id : String) (o1 o2 : YdlOutcome) :
    Action.ytdlp url id (ydlCookies url)
      ∈ ydlActions id (download_video_with_ytdlp url id o1 o2).2 := by
  cases o1 with
  | found p => simp [download_video_with_ytdlp, ydlActions]
  | noFile => simp [download_video_with_ytdlp, ydlActions]
  | dlError m =>
    by_cases h : cookieMsg m = true
    · cases o2 <;> simp [download_video_with_ytdlp, ydlActions, h]
    · simp [download_video_with_ytdlp, ydlActions, h]
  | otherExn m =>
    by_cases h : cookieMsg m = true
    · cases o2 <;> simp [download_video_with_ytdlp, ydlActions, h]
    · simp [download_video_with_ytdlp, ydlActions, h]

/-- The metadata attempt produced no direct URL: the fetch raised, or the
document had no `media.assets`, or asset selection found nothing. -/
def metaNoUrl : FetchResult → Bool
  | .exn => true
  | .ok a? => (a?.bind selectVideoUrl).isNone

/-- A letter is not a digit and not a newline, so a string containing one
fails `re.match(r'^\d+$', ...)`. -/
theorem matchAllDigits_false_of_letter {l : List Char} {c : Char}
    (hc : c ∈ l) (hl : letterChar c = true) : matchAllDigits l = false := by
  have hrange : (65 ≤ c.toNat ∧ c.toNat ≤ 90) ∨ (97 ≤ c.toNat ∧ c.toNat ≤ 122) := by
    simpa [letterChar, Bool.or_eq_true, Bool.and_eq_true, decide_eq_true_eq] using hl
  have hd : digitChar c = false := by
    simp only [digitChar, Bool.and_eq_false_iff, decide_eq_false_iff_not]
    omega
  have hn : c ≠ '\n' := by
    intro h
    rw [h] at hrange
    revert hrange
    decide
  cases hm : matchAllDigits l with
  | false => rfl
  | true =>
    exfalso
    have hm' : (l ≠ [] ∧ ∀ x ∈ l, digitChar x = true) ∨
        (l.getLast? = some '\n' ∧ l.dropLast ≠ [] ∧ ∀ x ∈ l.dropLast, digitChar x = true) := by
      simpa [matchAllDigits, Bool.or_eq_true, Bool.and_eq_true, List.all_eq_true,
        List.isEmpty_iff, and_assoc] using hm
    rcases hm' with ⟨_, hall⟩ | ⟨hlast, _, hall⟩
    · rw [hall c hc] at hd; cases hd
    · have hsplit : l.dropLast ++ ['\n'] = l := List.dropLast_append_getLast? '\n' hlast
      rw [← hsplit] at hc
      rcases List.mem_append.mp hc with h | h
      · rw [hall c h] at hd; cases hd
      · exact hn (List.mem_singleton.mp h)

/-- A nonempty all-digit string passes `re.match(r'^\d+$', ...)`. -/
theorem matchAllDigits_true {l : List Char} (hne : l ≠ [])
    (hall : l.all digitChar = true) : matchAllDigits l = true := by
  simp [matchAllDigits, hne, hall, List.isEmpty_iff]

/-- A substring occurrence survives appending on the right. -/
theorem subL_append_left {pat l1 : List Char} (h : subL pat l1 = true) (l2 : List Char) :
    subL pat (l1 ++ l2) = true := by
  induction l1 with
  | nil =>
    have hp : pat = [] := by simpa [subL, List.isEmpty_iff] using h
    subst hp
    cases l2 <;> simp [subL]
  | cons c cs ih =>
    simp only [subL, Bool.or_eq_true] at h
    rw [List.cons_append]
    simp only [subL, Bool.or_eq_true]
    rcases h with h | h
    · left
      rw [ List.isPrefixOf_iff_prefix] at h ⊢
      exact h.trans (by rw [← List.cons_append]; exact List.prefix_append _ _)
    · right; exact ih h

/-! ### Claim C5: unresolvable inputs fail with no external action -/

/-- C5: when no identifier can be extracted and the input contains neither the
(lowercase) token `http` nor `vimeo.com`/`wistia.com` in any case,
`extract_and_download` returns `(None, None)` with an empty action trace —
no network call and no download strategy is invoked. -/
theorem c5_unresolvable_no_action (s : String) (env : Env)
    (hid : extract_video_id s = none)
    (hhttp : subStr "http" s = false)
    (hv : subStr "vimeo.com" (lowerStr s) = false)
    (hw : subStr "wistia.com" (lowerStr s) = false) :
    extract_and_download s env = ⟨none, none, [], []⟩ := by
  unfold extract_and_download
  rw [hid]
  simp [hhttp, hv, hw]

/-- C5, witness at the spec's example input `"not a url or id"`. -/
theorem c5_witness :
    extract_video_id "not a url or id" = none ∧
    subStr "http" "not a url or id" = false ∧
    subStr "vimeo.com" (lowerStr "not a url or id") = false ∧
    subStr "wistia.com" (lowerStr "not a url or id") = false ∧
    extract_and_download "not a url or id" ⟨.exn, .httpExn, .noFile, .noFile⟩
      = ⟨none, none, [], []⟩ :=
  ⟨by decide, by decide, by decide, by decide,
    c5_unresolvable_no_action "not a url or id" ⟨.exn, .httpExn, .noFile, .noFile⟩
      (by decide) (by decide) (by decide) (by decide)⟩

/-! ### Claim C10: the raw-URL pass-through gate is case-sensitive for `http` -/

/-- C10: for an input with no extractable identifier, the raw input is handed
to the generic downloader (named `"video"`) exactly when it contains the
lowercase substring `http`, or `vimeo.com`/`wistia.com` case-insensitively;
otherwise the run returns `(None, None)` with no action.  Since the `http`
test at line 249 is on the raw input, an input containing only `HTTP` and
neither host substring takes the second branch. -/
theorem c10_raw_url_gate (s : String) (env : Env)
    (hid : extract_video_id s = none) :
    ((subStr "http" s || subStr "vimeo.com" (lowerStr s)
        || subStr "wistia.com" (lowerStr s)) = true →
      (extract_and_download s env).trace.head?
        = some (.ytdlp s "video" (ydlCookies s)))
    ∧ ((subStr "http" s || subStr "vimeo.com" (lowerStr s)
        || subStr "wistia.com" (lowerStr s)) = false →
      extract_and_download s env = ⟨none, none, [], []⟩) := by
  constructor
  · intro hcond
    unfold extract_and_download
    rw [hid]
    simp only [hcond, if_true]
    cases hr : (download_video_with_ytdlp s "video" env.o1 env.o2).1 <;>
      simp [ydlActions, List.head?_map, ydl_calls_head]
  · intro hcond
    unfold extract_and_download
    rw [hid]
    simp [hcond]

/-- C10, witness: `"SEE HTTP LINK"` has no extractable identifier, contains
`HTTP` only in uppercase and no host substring, and is rejected as
`(None, None)`. -/
theorem c10_witness :
    extract_video_id "SEE HTTP LINK" = none ∧
    (subStr "http" "SEE HTTP LINK" || subStr "vimeo.com" (lowerStr "SEE HTTP LINK")
      || subStr "wistia.com" (lowerStr "SEE HTTP LINK")) = false ∧
    extract_and_download "SEE HTTP LINK" ⟨.exn, .httpExn, .noFile, .noFile⟩
      = ⟨none, none, [], []⟩ :=
  ⟨by decide, by decide,
    (c10_raw_url_gate "SEE HTTP LINK" ⟨.exn, .httpExn, .noFile, .noFile⟩
      (by decide)).2 (by decide)⟩

/-! ### The Wistia branch of `extract_and_download` -/

/-- With an extracted identifier, not classified Vimeo, and no `http` token,
the run's first external action is the GET of the Wistia embed-JSON endpoint,
whatever the environment does afterwards. -/
theorem wistia_branch_head (s vid : String) (env : Env)
    (hid : extract_video_id s = some vid)
    (hv : is_vimeo_url s = false)
    (hhttp : subStr "http" s = false) :
    (extract_and_download s env).trace.head?
      = some (.fetchMeta ("https://fast.wistia.com/embed/medias/" ++ vid ++ ".json")) := by
  unfold extract_and_download
  rw [hid]
  simp only [hv, hhttp, Bool.or_self, Bool.false_eq_true, if_false]
  cases hf : env.fetch with
  | exn => simp
  | ok a? =>
    cases ha : a?.bind selectVideoUrl with
    | none => simp [ha]
    | some u =>
      cases hs : env.stream with
      | httpExn => simp [ha]
      | body ev =>
        by_cases hw : (writeChunks 0 ev).2 = true
        · simp [ha, hw]
        · simp [ha, hw]

/-- In the same situation, if the metadata attempt produced no direct URL
(exception, missing `media.assets`, or no eligible asset), the run invokes
yt-dlp on the constructed embed URL `https://fast.wistia.com/embed/medias/<id>`. -/
theorem wistia_branch_fallback (s vid : String) (env : Env)
    (hid : extract_video_id s = some vid)
    (hv : is_vimeo_url s = false)
    (hhttp : subStr "http" s = false)
    (hm : metaNoUrl env.fetch = true) :
    Action.ytdlp ("https://fast.wistia.com/embed/medias/" ++ vid) vid
        (ydlCookies ("https://fast.wistia.com/embed/medias/" ++ vid))
      ∈ (extract_and_download s env).trace := by
  unfold extract_and_download
  rw [hid]
  simp only [hv, hhttp, Bool.or_self, Bool.false_eq_true, if_false]
  cases hf : env.fetch with
  | exn =>
    simp only [List.mem_cons]
    exact Or.inr (ydl_first_action_mem _ _ _ _)
  | ok a? =>
    rw [hf] at hm
    have ha : a?.bind selectVideoUrl = none := by
      simpa [metaNoUrl, Option.isNone_iff_eq_none] using hm
    simp [ha]
    exact ydl_first_action_mem _ _ _ _

/-! ### Claim C2: Wistia inputs try the platform API first, then fall back -/

/-- C2: for an input with an extracted identifier, not classified Vimeo and
containing no `http` token, the run first GETs
`https://fast.wistia.com/embed/medias/<id>.json`, and whenever that metadata
attempt yields no direct URL (exception, missing assets, or no eligible
asset) it invokes the generic downloader on the constructed embed URL
`https://fast.wistia.com/embed/medias/<id>`. -/
theorem c2_platform_api_first (s vid : String) (env : Env)
    (hid : extract_video_id s = some vid)
    (hv : is_vimeo_url s = false)
    (hhttp : subStr "http" s = false) :
    (extract_and_download s env).trace.head?
      = some (.fetchMeta ("https://fast.wistia.com/embed/medias/" ++ vid ++ ".json"))
    ∧ (metaNoUrl env.fetch = true →
        Action.ytdlp ("https://fast.wistia.com/embed/medias/" ++ vid) vid
            (ydlCookies ("https://fast.wistia.com/embed/medias/" ++ vid))
          ∈ (extract_and_download s env).trace) :=
  ⟨wistia_branch_head s vid env hid hv hhttp,
   fun hm => wistia_branch_fallback s vid env hid hv hhttp hm⟩

/-- C2, witness at `"wistia.com/medias/abc1234567"` with a failing metadata
fetch: the first action is the embed-JSON GET and the fallback yt-dlp call on
the constructed embed URL appears in the trace. -/
theorem c2_witness :
    extract_video_id "wistia.com/medias/abc1234567" = some "abc1234567" ∧
    is_vimeo_url "wistia.com/medias/abc1234567" = false ∧
    subStr "http" "wistia.com/medias/abc1234567" = false ∧
    (extract_and_download "wistia.com/medias/abc1234567"
        ⟨.exn, .httpExn, .noFile, .noFile⟩).trace.head?
      = some (.fetchMeta "https://fast.wistia.com/embed/medias/abc1234567.json") ∧
    Action.ytdlp "https://fast.wistia.com/embed/medias/abc1234567" "abc1234567" none
      ∈ (extract_and_download "wistia.com/medias/abc1234567"
          ⟨.exn, .httpExn, .noFile, .noFile⟩).trace := by
  have h := c2_platform_api_first "wistia.com/medias/abc1234567" "abc1234567"
    ⟨.exn, .httpExn, .noFile, .noFile⟩ (by decide) (by decide) (by decide)
  refine ⟨by decide, by decide, by decide, ?_, ?_⟩
  · rw [h.1]; rfl
  · exact h.2 (by decide)

/-! ### Claim C9: routing of bare identifiers -/

/-- C9: for a bare-identifier input (identifier extracted; no `http`,
`vimeo.com` or `wistia.com` token): an all-digit input routes to the generic
downloader on the constructed URL `https://vimeo.com/<id>`, while an input
containing at least one letter first GETs the Wistia metadata endpoint
`https://fast.wistia.com/embed/medias/<id>.json`. -/
theorem c9_bare_id_routing (s vid : String) (env : Env)
    (hid : extract_video_id s = some vid)
    (hhttp : subStr "http" s = false)
    (hvs : subStr "vimeo.com" (lowerStr s) = false)
    (hws : subStr "wistia.com" (lowerStr s) = false) :
    (s.data ≠ [] ∧ s.data.all digitChar = true →
      (extract_and_download s env).trace.head?
        = some (.ytdlp ("https://vimeo.com/" ++ vid) vid
            (ydlCookies ("https://vimeo.com/" ++ vid))))
    ∧ ((∃ c ∈ s.data, letterChar c = true) →
      (extract_and_download s env).trace.head?
        = some (.fetchMeta ("https://fast.wistia.com/embed/medias/" ++ vid ++ ".json"))) := by
  constructor
  · rintro ⟨hne, hall⟩
    have hvim : is_vimeo_url s = true := by
      unfold is_vimeo_url
      rw [matchAllDigits_true hne hall]
      simp
    unfold extract_and_download
    rw [hid]
    simp [hvim, hhttp, ydlActions, List.head?_map, ydl_calls_head]
  · rintro ⟨c, hc, hlet⟩
    have hvim : is_vimeo_url s = false := by
      unfold is_vimeo_url
      rw [matchAllDigits_false_of_letter hc hlet, hvs]
      rfl
    exact wistia_branch_head s vid env hid hvim hhttp

/-- C9, witness: the all-digit identifier `"123456789"` routes to yt-dlp on
`https://vimeo.com/123456789` (with Vimeo browser cookies enabled), while the
lettered identifier `"abc1234567"` first GETs the Wistia metadata endpoint. -/
theorem c9_witness :
    (extract_and_download "123456789" ⟨.exn, .httpExn, .noFile, .noFile⟩).trace.head?
      = some (.ytdlp "https://vimeo.com/123456789" "123456789" (some "edge")) ∧
    (extract_and_download "abc1234567" ⟨.exn, .httpExn, .noFile, .noFile⟩).trace.head?
      = some (.fetchMeta "https://fast.wistia.com/embed/medias/abc1234567.json") := by
  constructor
  · have h := (c9_bare_id_routing "123456789" "123456789"
      ⟨.exn, .httpExn, .noFile, .noFile⟩ (by decide) (by decide) (by decide)
      (by decide)).1 ⟨by decide, by decide⟩
    exact h
  · have h := (c9_bare_id_routing "abc1234567" "abc1234567"
      ⟨.exn, .httpExn, .noFile, .noFile⟩ (by decide) (by decide) (by decide)
      (by decide)).2 ⟨'a', by decide, by decide⟩
    exact h

/-! ### Claim C4: partial downloads are not cleaned up -/

/-- C4, counterexample: a Wistia run whose metadata yields a direct URL and
whose chunked download is interrupted after one 8192-byte chunk, with the
yt-dlp fallback also failing: the run reports failure (`path = none`) yet the
partially written `wistia_abc1234567.mp4` remains recorded on disk, marked
incomplete — no code path removes it. -/
theorem c4_counterexample :
    (extract_and_download "wistia.com/medias/abc1234567"
        ⟨.ok (some [⟨some "original", some 0, none, some "http://u"⟩]),
         .body [.chunk 8192, .interrupt], .noFile, .noFile⟩).path = none ∧
    (extract_and_download "wistia.com/medias/abc1234567"
        ⟨.ok (some [⟨some "original", some 0, none, some "http://u"⟩]),
         .body [.chunk 8192, .interrupt], .noFile, .noFile⟩).files
      = [⟨"wistia_abc1234567.mp4", 8192, true⟩] := by
  constructor
  · rfl
  · rfl

/-- C4, amended: whenever the chunked streaming download of the Wistia branch
is interrupted mid-transfer, the partially written `wistia_<id>.mp4` (with
the bytes received so far) remains in the run's file record, marked
incomplete: the strategies perform no cleanup before reporting failure. -/
theorem c4_interrupted_stream_leaves_file (s vid u : String) (env : Env)
    (a? : Option (List Asset)) (events : List ChunkEvent)
    (hid : extract_video_id s = some vid)
    (hv : is_vimeo_url s = false)
    (hhttp : subStr "http" s = false)
    (hf : env.fetch = .ok a?)
    (hsel : a?.bind selectVideoUrl = some u)
    (hst : env.stream = .body events)
    (hint : (writeChunks 0 events).2 = true) :
    (extract_and_download s env).files
      = [⟨"wistia_" ++ vid ++ ".mp4", (writeChunks 0 events).1, true⟩] := by
  unfold extract_and_download
  rw [hid]
  simp [hv, hhttp, hf, hsel, hst, hint]

/-- C4, witness for `c4_interrupted_stream_leaves_file` at the
counterexample's input and environment. -/
theorem c4_witness :
    (writeChunks 0 [.chunk 8192, .interrupt]).2 = true ∧
    (extract_and_download "wistia.com/medias/abc1234567"
        ⟨.ok (some [⟨some "original", some 0, none, some "http://u"⟩]),
         .body [.chunk 8192, .interrupt], .noFile, .noFile⟩).files
      = [⟨"wistia_abc1234567.mp4", 8192, true⟩] := by
  have h := c4_interrupted_stream_leaves_file "wistia.com/medias/abc1234567" "abc1234567"
    "http://u" ⟨.ok (some [⟨some "original", some 0, none, some "http://u"⟩]),
      .body [.chunk 8192, .interrupt], .noFile, .noFile⟩
    (some [⟨some "original", some 0, none, some "http://u"⟩])
    [.chunk 8192, .interrupt] (by decide) (by decide) (by decide) rfl (by decide) rfl (by decide)
  refine ⟨by decide, ?_⟩
  rw [h]
  rfl

end VimeoTranscribe
